import Mathlib

/-!
# Smart Battery Monitor (ESP8266 V1.0) — verification of the configuration core

Shallow embedding of the persistent-configuration store (`EEPROMUtils.cpp`)
and the HTTP settings / WiFi-provisioning handlers (`AppServer.cpp`).

Modelling conventions:
* EEPROM memory is a total function `Nat → Nat` from byte address to byte value.
* The I2C bus in read direction is `Nat → Option Nat`: `none` at an address
  models `Wire.available()` being false for that requested byte (short read).
* C `float` values are modelled as exact rationals `ℚ`; comparisons and the
  assignments of the literals `0`/`100` are exact in IEEE-754 as well, so the
  clamping logic transfers byte-for-byte, while products are idealised.
* C strings are lists of non-null bytes (`List Nat`); a read buffer is a list
  of bytes whose C-string value is its prefix up to the first null byte.
-/

namespace BatteryMonitor

/-! ## Fixed EEPROM address table (AppServer.cpp lines 118–131) -/

def ADDR_WIFI_SSID : Nat := 500
def ADDR_WIFI_PASS : Nat := 564
def ADDR_BATTERY_CAPACITY : Nat := 20
def ADDR_VOLTAGE_OFFSET : Nat := 30
def ADDR_CURRENT_OFFSET : Nat := 40
def ADDR_MV_PER_AMP : Nat := 50
def ADDR_CHARGING_THRESHOLD : Nat := 200
def ADDR_DISCHARGING_THRESHOLD : Nat := 210
def ADDR_SOC : Nat := 140
def ADDR_CURRENT_DEADZONE : Nat := 220

/-- The full schema: each configuration field's start address and width in
bytes.  The string widths 32 and 64 are the sizes of the mirror buffers
`char savedSsid[32]` and `char savedPass[64]`; every float is 4 bytes. -/
def fieldTable : List (Nat × Nat) :=
  [(ADDR_WIFI_SSID, 32), (ADDR_WIFI_PASS, 64),
   (ADDR_BATTERY_CAPACITY, 4), (ADDR_VOLTAGE_OFFSET, 4),
   (ADDR_CURRENT_OFFSET, 4), (ADDR_MV_PER_AMP, 4),
   (ADDR_CHARGING_THRESHOLD, 4), (ADDR_DISCHARGING_THRESHOLD, 4),
   (ADDR_SOC, 4), (ADDR_CURRENT_DEADZONE, 4)]

/-! ## EEPROMUtils.cpp -/

/-- `readFloat(uint16_t addr, float* value)` (EEPROMUtils.cpp lines 45–61):
for each `i < 4` the code requests one byte at `addr + i` and stores it into
the stack buffer `byte data[4]` only `if (Wire.available())`; positions the
bus did not answer keep the buffer's indeterminate initial contents
(`scratch`).  Finally `memcpy(value, data, 4)` overwrites the destination
unconditionally.  The result below is the 4-byte `data` buffer that gets
copied over the caller's float. -/
def readFloatData (bus : Nat → Option Nat) (scratch : List Nat) (addr : Nat) :
    List Nat :=
  (List.range 4).map fun i => (bus (addr + i)).getD (scratch.getD i 0)

/-- `writeString(uint16_t addr, const char* value)` (EEPROMUtils.cpp lines
107–117): writes the `strlen(value)` bytes of `value` to consecutive
addresses starting at `addr`, followed by one null terminator byte at
`addr + strlen(value)`.  There is no maximum-length parameter: the function
writes `strlen(value) + 1` bytes wherever they land. -/
def writeString (mem : Nat → Nat) (addr : Nat) (value : List Nat) :
    Nat → Nat :=
  fun i =>
    if addr ≤ i ∧ i < addr + value.length then value.getD (i - addr) 0
    else if i = addr + value.length then 0
    else mem i

/-- `readString(uint16_t addr, char* buffer, size_t size)` (EEPROMUtils.cpp
lines 120–132): requests `size` bytes, copies into `buffer` while the bus has
data and `i < size - 1`, then null-terminates.  With a faithful bus
(`Wire.available()` always true) the resulting buffer holds the `size - 1`
memory bytes starting at `addr` followed by the terminating null. -/
def readString (mem : Nat → Nat) (addr size : Nat) : List Nat :=
  ((List.range (size - 1)).map fun i => mem (addr + i)) ++ [0]

/-- The value of a C-string buffer: its bytes up to the first null. -/
def cString (l : List Nat) : List Nat := l.takeWhile fun b => b != 0

/-- `saveWiFiCredentials` (AppServer.cpp lines 592–595): two `writeString`
calls at the fixed ssid and password addresses. -/
def saveWiFiCredentials (mem : Nat → Nat) (ssid pass : List Nat) :
    Nat → Nat :=
  writeString (writeString mem ADDR_WIFI_SSID ssid) ADDR_WIFI_PASS pass

/-! ## AppServer.cpp — settings endpoint -/

/-- The in-memory mirror variables touched by the settings path
(the `extern float` globals of AppServer.cpp lines 103–115, plus the WiFi
credential mirrors `savedSsid`/`savedPass`). -/
structure Settings where
  currentDeadzoneThreshold : ℚ
  batteryCapacityAh : ℚ
  voltageOffset : ℚ
  currentOffset : ℚ
  mVperAmp : ℚ
  chargingCurrentThreshold : ℚ
  dischargingCurrentThreshold : ℚ
  soc : ℚ
  totalCoulombs : ℚ
  savedSsid : List Nat
  savedPass : List Nat
  deriving DecidableEq, Repr

/-- A parsed `POST /settings` JSON body: which of the eight wire keys are
present and, when present, the submitted value (`doc.containsKey` /
`doc[key].as<float>()`). -/
structure SettingsBody where
  current_deadzone : Option ℚ
  capacity_ah : Option ℚ
  voltage_offset : Option ℚ
  current_offset : Option ℚ
  mv_per_amp : Option ℚ
  charge_threshold : Option ℚ
  discharge_threshold : Option ℚ
  soc : Option ℚ
  deriving DecidableEq, Repr

/-- One `if (doc.containsKey(k)) { mirror = v; writeFloat(addr, v); }` block:
returns the new mirror value together with the EEPROM write it issues. -/
def updField (cur : ℚ) (o : Option ℚ) (addr : Nat) : ℚ × List (Nat × ℚ) :=
  match o with
  | some v => (v, [(addr, v)])
  | none => (cur, [])

/-- The SOC clamp of AppServer.cpp lines 386–387:
`if (soc < 0) soc = 0; if (soc > 100) soc = 100;` executed sequentially. -/
def socClamp (x : ℚ) : ℚ :=
  let s1 := if x < 0 then 0 else x
  if s1 > 100 then 100 else s1

/-- Outcome of one `handleSettingsPost` call: final mirror state, the
sequence of `writeFloat(addr, value)` EEPROM writes in program order,
whether `lastActiveStateChange = millis()` ran, HTTP status. -/
structure PostResult where
  state : Settings
  writes : List (Nat × ℚ)
  idleTimerReset : Bool
  httpStatus : Nat
  deriving DecidableEq, Repr

/-- `handleSettingsPost` (AppServer.cpp lines 335–396).  `none` models a
request rejected before any field processing (missing body or unparsable
JSON, both answered 400 with no side effects).  For a parsed body the
handler processes the seven optional keys in program order, then always
runs the SOC block: default the absent `soc` key to the current mirror,
clamp, recompute `totalCoulombs = (soc/100) * batteryCapacityAh * 3600`
(with `batteryCapacityAh` already holding this request's value if
`capacity_ah` was submitted), persist SOC at its fixed address, and reset
the idle timer. -/
def handleSettingsPost (st : Settings) (body : Option SettingsBody) :
    PostResult :=
  match body with
  | none => ⟨st, [], false, 400⟩
  | some b =>
    let dz := updField st.currentDeadzoneThreshold b.current_deadzone
      ADDR_CURRENT_DEADZONE
    let cap := updField st.batteryCapacityAh b.capacity_ah
      ADDR_BATTERY_CAPACITY
    let vo := updField st.voltageOffset b.voltage_offset ADDR_VOLTAGE_OFFSET
    let co := updField st.currentOffset b.current_offset ADDR_CURRENT_OFFSET
    let mv := updField st.mVperAmp b.mv_per_amp ADDR_MV_PER_AMP
    let ct := updField st.chargingCurrentThreshold b.charge_threshold
      ADDR_CHARGING_THRESHOLD
    let dt := updField st.dischargingCurrentThreshold b.discharge_threshold
      ADDR_DISCHARGING_THRESHOLD
    let socNew := socClamp (b.soc.getD st.soc)
    let tc := socNew / 100 * cap.1 * 3600
    { state :=
        { currentDeadzoneThreshold := dz.1
          batteryCapacityAh := cap.1
          voltageOffset := vo.1
          currentOffset := co.1
          mVperAmp := mv.1
          chargingCurrentThreshold := ct.1
          dischargingCurrentThreshold := dt.1
          soc := socNew
          totalCoulombs := tc
          savedSsid := st.savedSsid
          savedPass := st.savedPass }
      writes := dz.2 ++ cap.2 ++ vo.2 ++ co.2 ++ mv.2 ++ ct.2 ++ dt.2 ++
        [(ADDR_SOC, socNew)]
      idleTimerReset := true
      httpStatus := 200 }

/-- The eight settings wire keys of the `POST /settings` body. -/
inductive SettingsKey
  | current_deadzone
  | capacity_ah
  | voltage_offset
  | current_offset
  | mv_per_amp
  | charge_threshold
  | discharge_threshold
  | soc
  deriving DecidableEq, Repr

/-- A body containing exactly one key `k` with value `v`. -/
def singleKeyBody (k : SettingsKey) (v : ℚ) : SettingsBody :=
  { current_deadzone := if k = .current_deadzone then some v else none
    capacity_ah := if k = .capacity_ah then some v else none
    voltage_offset := if k = .voltage_offset then some v else none
    current_offset := if k = .current_offset then some v else none
    mv_per_amp := if k = .mv_per_amp then some v else none
    charge_threshold := if k = .charge_threshold then some v else none
    discharge_threshold := if k = .discharge_threshold then some v else none
    soc := if k = .soc then some v else none }

/-- The mirror variable backing each wire key. -/
def getMirror (st : Settings) : SettingsKey → ℚ
  | .current_deadzone => st.currentDeadzoneThreshold
  | .capacity_ah => st.batteryCapacityAh
  | .voltage_offset => st.voltageOffset
  | .current_offset => st.currentOffset
  | .mv_per_amp => st.mVperAmp
  | .charge_threshold => st.chargingCurrentThreshold
  | .discharge_threshold => st.dischargingCurrentThreshold
  | .soc => st.soc

/-- The validator each key applies before the mirror assignment: only `soc`
has one (the clamp); every other key stores the submitted value as-is. -/
def validatedValue (k : SettingsKey) (v : ℚ) : ℚ :=
  if k = .soc then socClamp v else v

/-! ## AppServer.cpp — WiFi provisioning endpoint -/

/-- An IPv4 address as four octets. -/
def IpAddr := Nat × Nat × Nat × Nat
deriving DecidableEq, Repr

/-- `IPAddress(0,0,0,0)`, the sentinel the handler compares against. -/
def zeroIp : IpAddr := (0, 0, 0, 0)

/-- `IPAddress::toString()`-style dotted-quad rendering. -/
def ipToString (ip : IpAddr) : String :=
  toString ip.1 ++ "." ++ toString ip.2.1 ++ "." ++ toString ip.2.2.1 ++
    "." ++ toString ip.2.2.2

/-- A parsed `POST /wifi_config` JSON body.  `req["ssid"]` as a
`const char*` is null exactly when the key is absent (or not a string), so
each field is `none` when the handler's null check fails and `some` of the
string (possibly empty) otherwise. -/
structure WifiRequest where
  ssid : Option String
  password : Option String
  deriving DecidableEq, Repr

/-- The join-attempt environment: for each polling iteration `t`,
`env t = some ip` models `WiFi.status() == WL_CONNECTED` holding at that
poll with `WiFi.localIP() = ip`, and `none` models not (yet) connected. -/
def WifiEnv := Nat → Option IpAddr

/-- The `while (millis() - startAttempt < timeoutMs)` polling loop of
`handleWiFiConfig` (AppServer.cpp lines 438–450): each iteration polls the
join status and otherwise delays `delay(10)` before re-polling, so the
20000 ms budget admits `timeoutMs / 10` polls.  Returns the assigned IP of
the first successful poll, or `none` if the budget is exhausted. -/
def pollLoop (env : WifiEnv) : Nat → Nat → Option IpAddr
  | _, 0 => none
  | t, fuel + 1 =>
    match env t with
    | some ip => some ip
    | none => pollLoop env (t + 1) fuel

/-- `const unsigned long timeoutMs = 20000;` (AppServer.cpp line 433). -/
def timeoutMs : Nat := 20000

/-- `delay(10)` between polls (AppServer.cpp line 448). -/
def pollStepMs : Nat := 10

/-- Number of poll iterations that fit in the timeout budget. -/
def numPolls : Nat := timeoutMs / pollStepMs

/-- Outcome of one `handleWiFiConfig` call: HTTP status, the JSON `status`
and `sta_ip` fields (absent for the plain-text error responses), the
credentials passed to `saveWiFiCredentials` (or `none` when no persistence
happened), and whether `ESP.restart()` ran. -/
structure WifiResult where
  httpStatus : Nat
  connStatus : Option String
  staIp : Option String
  persisted : Option (String × String)
  restarted : Bool
  deriving DecidableEq, Repr

/-- `handleWiFiConfig` (AppServer.cpp lines 404–481).  `none` models a
request with a missing body or unparsable JSON (rejected 400, no side
effects).  For a parsed body, `if (newSsid && newPass)` — a null-pointer
presence check only — decides between the provisioning path (persist the
credentials, run the 20 s polling loop, answer `OK` with the assigned IP
when connected with a nonzero address and `NOT_CONNECTED` with an empty
`sta_ip` otherwise, then restart unconditionally) and a 400 rejection with
no persistence and no restart. -/
def handleWiFiConfig (env : WifiEnv) (req : Option WifiRequest) :
    WifiResult :=
  match req with
  | none => ⟨400, none, none, none, false⟩
  | some r =>
    match r.ssid, r.password with
    | some s, some p =>
      match pollLoop env 0 numPolls with
      | some ip =>
        if ip ≠ zeroIp then
          ⟨200, some "OK", some (ipToString ip), some (s, p), true⟩
        else
          ⟨200, some "NOT_CONNECTED", some "", some (s, p), true⟩
      | none => ⟨200, some "NOT_CONNECTED", some "", some (s, p), true⟩
    | _, _ => ⟨400, none, none, none, false⟩

/-- Concrete mirror state used by witnesses. -/
def sampleSettings : Settings :=
  { currentDeadzoneThreshold := 1/2
    batteryCapacityAh := 100
    voltageOffset := 0
    currentOffset := 0
    mVperAmp := 66
    chargingCurrentThreshold := 3/10
    dischargingCurrentThreshold := 3/10
    soc := 50
    totalCoulombs := 180000
    savedSsid := []
    savedPass := [] }

/-! ## Theorems -/

/-- C7: for the full fixed address table of ten configuration fields
(ssid at 500 width 32, password at 564 width 64, and the eight 4-byte
floats at 20, 30, 40, 50, 140, 200, 210, 220), no two
`[address, address+width)` ranges intersect. -/
theorem fieldTable_ranges_pairwise_disjoint :
    List.Pairwise (fun a b : Nat × Nat =>
      Disjoint (Finset.Ico a.1 (a.1 + a.2)) (Finset.Ico b.1 (b.1 + b.2)))
      fieldTable := by decide

/-- C2 counterexample: an empty read (the bus answers no byte of the four
requested) does NOT leave the field at its prior mirror value.  With the
uninitialized `data` buffer holding `[0,0,0,0]` and the field's prior
bytes `[1,1,1,1]`, `memcpy(value, data, 4)` replaces the field with the
buffer contents, so the claimed preservation fails. -/
theorem readFloat_empty_read_cex :
    readFloatData (fun _ => none) [0, 0, 0, 0] ADDR_SOC ≠ [1, 1, 1, 1] := by
  decide

/-- C2 amended: on a read in which the bus returns no byte, no error is
surfaced (the call always yields a well-formed 4-byte result) and the field
receives the read buffer's indeterminate prior contents — not its prior
mirror value. -/
theorem readFloat_empty_read_soft_fail (bus : Nat → Option Nat)
    (scratch : List Nat) (addr : Nat) (hlen : scratch.length = 4)
    (hshort : ∀ i, i < 4 → bus (addr + i) = none) :
    (readFloatData bus scratch addr).length = 4 ∧
    readFloatData bus scratch addr = scratch := by
  obtain ⟨a, b, c, d, rfl⟩ : ∃ a b c d, scratch = [a, b, c, d] := by
    match scratch, hlen with
    | [a, b, c, d], _ => exact ⟨a, b, c, d, rfl⟩
  have h0 : bus addr = none := by simpa using hshort 0 (by norm_num)
  have h1 := hshort 1 (by norm_num)
  have h2 := hshort 2 (by norm_num)
  have h3 := hshort 3 (by norm_num)
  have hr : List.range 4 = [0, 1, 2, 3] := rfl
  refine ⟨rfl, ?_⟩
  simp [readFloatData, hr, h0, h1, h2, h3]

/-- Witness for C2's amended theorem at a concrete bus and buffer. -/
theorem readFloat_empty_read_soft_fail_witness :
    ([5, 6, 7, 8] : List Nat).length = 4 ∧
    readFloatData (fun _ => none) [5, 6, 7, 8] ADDR_SOC = [5, 6, 7, 8] :=
  ⟨by decide,
   (readFloat_empty_read_soft_fail (fun _ => none) [5, 6, 7, 8] ADDR_SOC
      (by decide) (fun i _ => rfl)).2⟩

/-- C10: `writeString` takes no maximum-length parameter and writes exactly
`strlen(value) + 1` bytes starting at the given address (every position in
`[addr, addr + len + 1)` receives the corresponding byte of `value ++ [0]`,
and no position outside is touched); consequently an ssid of length 64
written at 500 by `saveWiFiCredentials` reaches address 564, inside the
password field's range `[564, 628)`. -/
theorem writeString_unbounded_overflow :
    (∀ (mem : Nat → Nat) (addr : Nat) (s : List Nat) (a : Nat),
        addr ≤ a → a < addr + s.length + 1 →
        writeString mem addr s a = (s ++ [0]).getD (a - addr) 0) ∧
    (∀ (mem : Nat → Nat) (addr : Nat) (s : List Nat) (a : Nat),
        a < addr ∨ addr + s.length + 1 ≤ a →
        writeString mem addr s a = mem a) ∧
    (∃ s : List Nat, 64 ≤ s.length ∧ ∃ a,
        ADDR_WIFI_PASS ≤ a ∧ a < ADDR_WIFI_PASS + 64 ∧
        ADDR_WIFI_SSID ≤ a ∧ a < ADDR_WIFI_SSID + s.length + 1 ∧
        writeString (fun _ => 1) ADDR_WIFI_SSID s a ≠ 1) := by
  refine ⟨?_, ?_, ?_⟩
  · intro mem addr s a hlo hhi
    unfold writeString
    rcases lt_or_le a (addr + s.length) with h | h
    · rw [if_pos ⟨hlo, h⟩, List.getD_append s [0] 0 (a - addr) (by omega)]
    · have ha : a = addr + s.length := by omega
      rw [if_neg (by omega), if_pos ha, ha]
      have hd : addr + s.length - addr = s.length := by omega
      rw [hd, List.getD_append_right s [0] 0 s.length (by omega)]
      simp
  · intro mem addr s a h
    unfold writeString
    rw [if_neg (by omega), if_neg (by omega)]
  · refine ⟨List.replicate 64 2, by decide, 564, by decide, by decide,
      by decide, by decide, ?_⟩
    decide

/-- Witness for C10 at a concrete 64-byte ssid: the terminator lands on
address 564, the first byte of the password field. -/
theorem writeString_unbounded_overflow_witness :
    (500 ≤ 564 ∧ 564 < 500 + (List.replicate 64 2 : List Nat).length + 1) ∧
    writeString (fun _ => 1) 500 (List.replicate 64 2) 564 =
      ((List.replicate 64 2 : List Nat) ++ [0]).getD (564 - 500) 0 :=
  ⟨⟨by decide, by decide⟩,
   writeString_unbounded_overflow.1 (fun _ => 1) 500 (List.replicate 64 2) 564
     (by decide) (by decide)⟩

/-- Reading a list back out of its own index range recovers the list. -/
theorem range_map_getD (l : List Nat) :
    ((List.range l.length).map fun i => l.getD i 0) = l := by
  apply List.ext_get (by simp)
  intro n h1 h2
  simp only [List.get_eq_getElem, List.getElem_map, List.getElem_range]
  rw [List.getD_eq_getElem l 0 h2]

/-- The C-string value of a buffer that is a null-free prefix followed by a
null byte is exactly that prefix. -/
theorem takeWhile_append_zero (s r : List Nat) (h : ∀ b ∈ s, b ≠ 0) :
    List.takeWhile (fun b => b != 0) (s ++ 0 :: r) = s := by
  induction s with
  | nil => simp [List.takeWhile_cons]
  | cons a t ih =>
    have ha : a ≠ 0 := h a (List.mem_cons_self a t)
    simp [List.takeWhile_cons, ha,
      ih (fun b hb => h b (List.mem_cons_of_mem a hb))]

/-- C6: for every string `s` with `len(s) < maxLen` and every address `a`,
writing `s` at `a` with `writeString` and then reading at `a` with
`readString` and the same `maxLen` yields `s` (the bus faithfully stores
and returns bytes; `s` is a C string, so it contains no null byte). -/
theorem writeString_readString_roundtrip (mem : Nat → Nat) (addr maxLen : Nat)
    (s : List Nat) (hlen : s.length < maxLen) (hnz : ∀ b ∈ s, b ≠ 0) :
    cString (readString (writeString mem addr s) addr maxLen) = s := by
  obtain ⟨k, hk⟩ : ∃ k, maxLen - 1 = s.length + k :=
    ⟨maxLen - 1 - s.length, by omega⟩
  have hcong : ∀ i ∈ List.range s.length,
      writeString mem addr s (addr + i) = s.getD i 0 := by
    intro i hi
    rw [List.mem_range] at hi
    unfold writeString
    rw [if_pos ⟨Nat.le_add_right _ _, by omega⟩]
    congr 1
    omega
  have hmapfirst : ((List.range s.length).map fun i =>
      writeString mem addr s (addr + i)) = s := by
    rw [List.map_congr_left hcong, range_map_getD]
  have hbuf : ∃ r, readString (writeString mem addr s) addr maxLen
      = s ++ 0 :: r := by
    unfold readString
    rw [hk, List.range_add, List.map_append, hmapfirst, List.map_map]
    rcases k with _ | k'
    · exact ⟨[], by simp⟩
    · rw [List.range_succ_eq_map, List.map_cons]
      have h0 : ((fun i => writeString mem addr s (addr + i)) ∘
          (fun x => s.length + x)) 0 = 0 := by
        simp only [Function.comp]
        unfold writeString
        rw [if_neg (by omega), if_pos (by omega)]
      rw [h0]
      refine ⟨List.map (((fun i => writeString mem addr s (addr + i)) ∘
          fun x => s.length + x) ∘ Nat.succ) (List.range k') ++ [0], ?_⟩
      simp
  obtain ⟨r, hr⟩ := hbuf
  unfold cString
  rw [hr]
  exact takeWhile_append_zero s r hnz

/-- Witness for C6: the two-byte string `"hi"` round-trips through slot 500
with the ssid width 32. -/
theorem writeString_readString_roundtrip_witness :
    (([104, 105] : List Nat).length < 32 ∧
      ∀ b ∈ ([104, 105] : List Nat), b ≠ 0) ∧
    cString (readString (writeString (fun _ => 7) 500 [104, 105]) 500 32)
      = [104, 105] :=
  ⟨⟨by decide, by decide⟩,
   writeString_readString_roundtrip (fun _ => 7) 500 32 [104, 105]
     (by decide) (by decide)⟩

/-- A successful poll result comes from the environment: if the polling
loop reports an assigned IP, some poll answered with that IP. -/
theorem pollLoop_some_env (env : WifiEnv) (t fuel : Nat) (ip : IpAddr)
    (h : pollLoop env t fuel = some ip) : ∃ u, env u = some ip := by
  induction fuel generalizing t with
  | zero => simp [pollLoop] at h
  | succ n ih =>
    rw [pollLoop] at h
    rcases he : env t with _ | ip'
    · rw [he] at h
      exact ih _ h
    · rw [he] at h
      cases h
      exact ⟨t, he⟩

/-- C3: for every credential submission containing both `ssid` and
`password`, the handler polls the join status for the fixed 20000 ms
timeout budget; if the join succeeds within the budget (the polling loop
reports an assigned address — which the WiFi layer guarantees is nonzero
when connected, hypothesis `hnz`) the response is status `"OK"` with the
assigned `sta_ip`, otherwise status `"NOT_CONNECTED"` with an empty
`sta_ip`; in both cases the device restarts after responding. -/
theorem wifiConfig_join_outcome (env : WifiEnv) (s p : String)
    (hnz : ∀ t ip, env t = some ip → ip ≠ zeroIp) :
    timeoutMs = 20000 ∧
    (handleWiFiConfig env (some ⟨some s, some p⟩)).restarted = true ∧
    (∀ ip, pollLoop env 0 numPolls = some ip →
      (handleWiFiConfig env (some ⟨some s, some p⟩)).connStatus = some "OK" ∧
      (handleWiFiConfig env (some ⟨some s, some p⟩)).staIp
        = some (ipToString ip)) ∧
    (pollLoop env 0 numPolls = none →
      (handleWiFiConfig env (some ⟨some s, some p⟩)).connStatus
        = some "NOT_CONNECTED" ∧
      (handleWiFiConfig env (some ⟨some s, some p⟩)).staIp = some "") := by
  refine ⟨rfl, ?_, ?_, ?_⟩
  · unfold handleWiFiConfig
    rcases hp : pollLoop env 0 numPolls with _ | ip
    · simp [hp]
    · simp only [hp]
      split <;> rfl
  · intro ip hp
    have hip : ip ≠ zeroIp := by
      obtain ⟨u, hu⟩ := pollLoop_some_env env 0 numPolls ip hp
      exact hnz u ip hu
    unfold handleWiFiConfig
    simp [hp, hip]
  · intro hp
    unfold handleWiFiConfig
    simp [hp]

/-- Witness for C3: an environment already joined at the first poll with
address 10.0.0.5 produces an `"OK"` response carrying that address. -/
theorem wifiConfig_join_outcome_witness :
    (handleWiFiConfig (fun _ => some (10, 0, 0, 5))
      (some ⟨some "Net", some "pass1234"⟩)).restarted = true ∧
    (handleWiFiConfig (fun _ => some (10, 0, 0, 5))
      (some ⟨some "Net", some "pass1234"⟩)).connStatus = some "OK" ∧
    (handleWiFiConfig (fun _ => some (10, 0, 0, 5))
      (some ⟨some "Net", some "pass1234"⟩)).staIp = some "10.0.0.5" :=
  have h := wifiConfig_join_outcome (fun _ => some (10, 0, 0, 5)) "Net"
    "pass1234" (fun t ip hip => by cases hip; decide)
  have hok := h.2.2.1 (10, 0, 0, 5) rfl
  ⟨h.2.1, hok.1, by rw [hok.2]; rfl⟩

/-- C4: a credential submission missing `ssid` or missing `password`
(including an empty JSON object, where both are absent) is answered with a
client error (400), persists nothing, and does not restart the device. -/
theorem wifiConfig_missing_field_rejected (env : WifiEnv) (r : WifiRequest)
    (h : r.ssid = none ∨ r.password = none) :
    (handleWiFiConfig env (some r)).httpStatus = 400 ∧
    (handleWiFiConfig env (some r)).persisted = none ∧
    (handleWiFiConfig env (some r)).restarted = false := by
  rcases r with ⟨so, po⟩
  rcases so with _ | sv <;> rcases po with _ | pv <;>
    simp_all [handleWiFiConfig]

/-- Witness for C4: the empty JSON object `{}`. -/
theorem wifiConfig_missing_field_rejected_witness :
    (handleWiFiConfig (fun _ => none) (some ⟨none, none⟩)).httpStatus = 400 ∧
    (handleWiFiConfig (fun _ => none) (some ⟨none, none⟩)).persisted = none ∧
    (handleWiFiConfig (fun _ => none) (some ⟨none, none⟩)).restarted = false :=
  wifiConfig_missing_field_rejected (fun _ => none) ⟨none, none⟩ (Or.inl rfl)

set_option maxRecDepth 10000 in
/-- C8 counterexample: a submission with the EMPTY ssid string and a
password is not rejected — `if (newSsid && newPass)` only checks the
pointers for null, and `req["ssid"]` for a present `""` is a non-null
pointer — so the handler persists the empty credentials and restarts the
device (here in an environment where the join never succeeds). -/
theorem wifi_empty_ssid_accepted_cex :
    (handleWiFiConfig (fun _ => none)
      (some ⟨some "", some "pw"⟩)).persisted = some ("", "pw") ∧
    (handleWiFiConfig (fun _ => none)
      (some ⟨some "", some "pw"⟩)).restarted = true := by
  constructor <;> rfl

/-- C8 amended: the handler accepts a credential submission (persists the
credentials, runs the join attempt, restarts) exactly when both `ssid` and
`password` keys are present, regardless of the ssid's content; only an
absent key is rejected. -/
theorem wifiConfig_accepts_iff_keys_present (env : WifiEnv)
    (r : WifiRequest) :
    ((handleWiFiConfig env (some r)).persisted.isSome = true ∧
     (handleWiFiConfig env (some r)).restarted = true) ↔
    (r.ssid.isSome = true ∧ r.password.isSome = true) := by
  rcases r with ⟨so, po⟩
  rcases so with _ | sv <;> rcases po with _ | pv <;>
    simp [handleWiFiConfig]
  rcases hp : pollLoop env 0 numPolls with _ | ip
  · simp [hp]
  · simp only [hp]
    split <;> simp

/-- The sequential two-if clamp computes `max(0, min(100, x))`. -/
theorem socClamp_eq_max_min (x : ℚ) : socClamp x = max 0 (min 100 x) := by
  simp only [socClamp]
  rcases lt_or_le x 0 with h | h
  · rw [if_pos h, if_neg (by norm_num), min_eq_right (by linarith),
      max_eq_left (by linarith)]
  · rw [if_neg (not_lt.mpr h)]
    rcases le_or_lt x 100 with h2 | h2
    · rw [if_neg (not_lt.mpr h2), min_eq_right h2, max_eq_right h]
    · rw [if_pos h2, min_eq_left (le_of_lt h2)]
      norm_num

/-- The clamp fixes values already inside `[0, 100]`. -/
theorem socClamp_of_bounds (x : ℚ) (h0 : 0 ≤ x) (h1 : x ≤ 100) :
    socClamp x = x := by
  simp only [socClamp]
  rw [if_neg (not_lt.mpr h0), if_neg (not_lt.mpr h1)]

/-- C5: a settings update submitting a `soc` value `x` leaves the soc
mirror at `max(0, min(100, x))`, and the derived accumulator is recomputed
from the clamped value (`totalCoulombs = soc/100 * batteryCapacityAh *
3600`, with the capacity mirror as updated by this same request). -/
theorem settingsPost_soc_clamped (st : Settings) (b : SettingsBody) (x : ℚ)
    (hx : b.soc = some x) :
    (handleSettingsPost st (some b)).state.soc = max 0 (min 100 x) ∧
    (handleSettingsPost st (some b)).state.totalCoulombs =
      max 0 (min 100 x) / 100 *
        (handleSettingsPost st (some b)).state.batteryCapacityAh * 3600 := by
  simp [handleSettingsPost, hx, socClamp_eq_max_min]

/-- Witness for C5: submitting `soc = 150` yields mirror 100 (clamped). -/
theorem settingsPost_soc_clamped_witness :
    (singleKeyBody .soc 150).soc = some 150 ∧
    (handleSettingsPost sampleSettings
        (some (singleKeyBody .soc 150))).state.soc
      = max 0 (min 100 150) ∧
    (handleSettingsPost sampleSettings
        (some (singleKeyBody .soc 150))).state.totalCoulombs
      = max 0 (min 100 150) / 100 *
        (handleSettingsPost sampleSettings
          (some (singleKeyBody .soc 150))).state.batteryCapacityAh * 3600 :=
  ⟨rfl,
   settingsPost_soc_clamped sampleSettings (singleKeyBody .soc 150) 150 rfl⟩

/-- C9: every well-formed settings update request — even one whose body
does not contain the key `soc` at all — re-clamps the soc mirror
(defaulting the absent key to the current mirror), recomputes the derived
accumulator from it, writes the soc value to persistent storage at its
fixed address 140, and resets the idle-state timestamp. -/
theorem settingsPost_always_soc_path (st : Settings) (b : SettingsBody) :
    (handleSettingsPost st (some b)).state.soc
      = socClamp (b.soc.getD st.soc) ∧
    (handleSettingsPost st (some b)).state.totalCoulombs =
      (handleSettingsPost st (some b)).state.soc / 100 *
        (handleSettingsPost st (some b)).state.batteryCapacityAh * 3600 ∧
    (ADDR_SOC, (handleSettingsPost st (some b)).state.soc) ∈
      (handleSettingsPost st (some b)).writes ∧
    (handleSettingsPost st (some b)).idleTimerReset = true := by
  refine ⟨rfl, rfl, ?_, rfl⟩
  simp [handleSettingsPost]

/-- C1: a settings update whose body contains only the single key `k` sets
the mirror for `k` to the submitted value (after `k`'s validator — only
`soc` has one) and leaves the mirror of every other configuration field
unchanged, including the credential mirrors.  The prior soc mirror is
assumed inside `[0, 100]`: the invariant every update re-establishes
(lines 386–387) and bootstrap establishes by clamping persisted data. -/
theorem settingsPost_single_key_frame (st : Settings) (k : SettingsKey)
    (v : ℚ) (h0 : 0 ≤ st.soc) (h1 : st.soc ≤ 100) :
    getMirror (handleSettingsPost st (some (singleKeyBody k v))).state k
      = validatedValue k v ∧
    (∀ k' : SettingsKey, k' ≠ k →
      getMirror (handleSettingsPost st (some (singleKeyBody k v))).state k'
        = getMirror st k') ∧
    (handleSettingsPost st
        (some (singleKeyBody k v))).state.savedSsid = st.savedSsid ∧
    (handleSettingsPost st
        (some (singleKeyBody k v))).state.savedPass = st.savedPass := by
  have hclamp := socClamp_of_bounds st.soc h0 h1
  refine ⟨?_, ?_, rfl, rfl⟩
  · cases k <;>
      simp [handleSettingsPost, singleKeyBody, getMirror, validatedValue,
        updField]
  · intro k' hk'
    cases k <;> cases k' <;>
      first
      | exact absurd rfl hk'
      | simp [handleSettingsPost, singleKeyBody, getMirror, updField, hclamp]

/-- Witness for C1: updating only `capacity_ah` on a concrete state sets
that mirror and leaves `voltage_offset` unchanged. -/
theorem settingsPost_single_key_frame_witness :
    ((0 : ℚ) ≤ sampleSettings.soc ∧ sampleSettings.soc ≤ 100) ∧
    getMirror (handleSettingsPost sampleSettings
        (some (singleKeyBody .capacity_ah 75))).state .capacity_ah
      = validatedValue .capacity_ah 75 ∧
    getMirror (handleSettingsPost sampleSettings
        (some (singleKeyBody .capacity_ah 75))).state .voltage_offset
      = getMirror sampleSettings .voltage_offset :=
  ⟨⟨by norm_num [sampleSettings], by norm_num [sampleSettings]⟩,
   (settingsPost_single_key_frame sampleSettings .capacity_ah 75
      (by norm_num [sampleSettings]) (by norm_num [sampleSettings])).1,
   (settingsPost_single_key_frame sampleSettings .capacity_ah 75
      (by norm_num [sampleSettings]) (by norm_num [sampleSettings])).2.1
     .voltage_offset (by decide)⟩

end BatteryMonitor
